import Mathlib

/-!
Verification of the core retry/timeout logic of the pyinputplus repository.

The embedding below translates `src/pyinputplus/core.py` (the evaluator
`_check_limit_and_timeout` and the prompt-validate-retry loop
`_generic_input`) and the relevant parts of `src/pyinputplus/inputs.py`
(the `inputInt` / `inputFloat` wrappers) into Lean.

Modelling choices:
* Clock readings (`time.time()`) and the `timeout` budget are rationals
  (the claims involve only comparison and addition, never float rounding).
  Each call of `time.time()` inside the loop body is an explicit input:
  an `AttemptEvent` carries the raw line read from the user together with
  the two clock readings an iteration can make (one inside the evaluator
  on a failed attempt, one at the post-success timeout re-check).
* `tries` and `limit` are integers, as in Python.
* The working value (raw input / transformed / validated value) lives in a
  single type `V`, mirroring the dynamic typing of Python; exceptions raised by
  the caller-supplied transforms are values of a type `E`, so fallible
  Python callables become `V → Except E V`.  The validation function raises
  a message that the loop prints, so it is `V → Except String (Option V)`
  (`.ok (some v)` models returning a non-`None` replacement value).
* The Python `None` default / timeout / limit / mask arguments become
  `Option`; a configured default is `some d`.
* The console output of the loop of validation-failure messages (`print(exc)`)
  is modelled by returning the list of printed messages alongside the
  outcome.  The loop consumes a finite list of `AttemptEvent`s; if it
  would keep looping past the end of the list the outcome is `.pending`.
-/

namespace PyInputPlus

/-- The two exception objects `_check_limit_and_timeout` can return
(`PyIPTimeoutError` and `RetryLimitError` from `exceptions.py`). -/
inductive LimitTimeoutOutcome where
  | timeoutExceeded
  | retryLimitExceeded
deriving DecidableEq

/-- The condition of core.py line 45: `timeout is not None and start_time + timeout < time.time()`.
The clock reading `now` is the value of `time.time()` at evaluation time. -/
def timeoutElapsedB (start_time : ℚ) (timeout : Option ℚ) (now : ℚ) : Bool :=
  match timeout with
  | some t => decide (start_time + t < now)
  | none => false

/-- The condition of core.py line 48: `limit is not None and tries >= limit`. -/
def triesExhaustedB (tries : ℤ) (limit : Option ℤ) : Bool :=
  match limit with
  | some l => decide (tries ≥ l)
  | none => false

/-- Embedding of `_check_limit_and_timeout` (core.py lines 29-51).  Returns
the exception object (as data) when a budget is exceeded, else `none`.
The clock reading `now` stands for the `time.time()` call on line 45. -/
def _check_limit_and_timeout (start_time : ℚ) (timeout : Option ℚ)
    (tries : ℤ) (limit : Option ℤ) (now : ℚ) : Option LimitTimeoutOutcome :=
  if timeoutElapsedB start_time timeout now then
    some .timeoutExceeded
  else if triesExhaustedB tries limit then
    some .retryLimitExceeded
  else
    none

/-- Claim C1: the evaluator yields the timeout outcome exactly when a timeout
is set and strictly exceeded; otherwise the retry-limit outcome exactly when
a limit is set and `tries >= limit`; otherwise no outcome.  When both budgets
are exceeded simultaneously, the timeout outcome takes precedence. -/
theorem check_limit_and_timeout_spec (start_time now : ℚ) (timeout : Option ℚ)
    (tries : ℤ) (limit : Option ℤ) :
    (_check_limit_and_timeout start_time timeout tries limit now =
        some .timeoutExceeded ↔ ∃ t, timeout = some t ∧ start_time + t < now)
    ∧ (_check_limit_and_timeout start_time timeout tries limit now =
        some .retryLimitExceeded ↔
        (¬ ∃ t, timeout = some t ∧ start_time + t < now) ∧
          ∃ l, limit = some l ∧ l ≤ tries)
    ∧ (_check_limit_and_timeout start_time timeout tries limit now = none ↔
        (¬ ∃ t, timeout = some t ∧ start_time + t < now) ∧
          ¬ ∃ l, limit = some l ∧ l ≤ tries) := by
  have hT : timeoutElapsedB start_time timeout now = true ↔
      ∃ t, timeout = some t ∧ start_time + t < now := by
    cases timeout with
    | none => simp [timeoutElapsedB]
    | some t => simp [timeoutElapsedB]
  have hL : triesExhaustedB tries limit = true ↔
      ∃ l, limit = some l ∧ l ≤ tries := by
    cases limit with
    | none => simp [triesExhaustedB]
    | some l => simp [triesExhaustedB, ge_iff_le]
  unfold _check_limit_and_timeout
  rcases hb : timeoutElapsedB start_time timeout now with _ | _
  · rcases hc : triesExhaustedB tries limit with _ | _
    · simp_all
    · simp_all
  · simp_all

/-- Claim C9: the evaluator is a pure function of its inputs — two calls with
identical arguments (including the clock reading) yield identical results —
and along runs with non-decreasing `tries` and non-decreasing clock time an
answer that signalled an outcome keeps signalling an outcome (past answers,
being determined by their own arguments, never change). -/
theorem check_limit_and_timeout_idempotent (start_time : ℚ) (timeout : Option ℚ)
    (tries tries' : ℤ) (limit : Option ℤ) (now now' : ℚ)
    (hnow : now ≤ now') (htries : tries ≤ tries')
    (hsome : (_check_limit_and_timeout start_time timeout tries limit now).isSome) :
    _check_limit_and_timeout start_time timeout tries limit now =
      _check_limit_and_timeout start_time timeout tries limit now
    ∧ (_check_limit_and_timeout start_time timeout tries' limit now').isSome := by
  refine ⟨rfl, ?_⟩
  unfold _check_limit_and_timeout at *
  by_cases hT : timeoutElapsedB start_time timeout now = true
  · have hT' : timeoutElapsedB start_time timeout now' = true := by
      cases timeout with
      | none => simp [timeoutElapsedB] at hT
      | some t =>
        simp only [timeoutElapsedB, decide_eq_true_eq] at hT ⊢
        exact lt_of_lt_of_le hT hnow
    simp [hT']
  · simp only [hT, Bool.false_eq_true, if_false] at hsome
    by_cases hL : triesExhaustedB tries limit = true
    · have hL' : triesExhaustedB tries' limit = true := by
        cases limit with
        | none => simp [triesExhaustedB] at hL
        | some l =>
          simp only [triesExhaustedB, ge_iff_le, decide_eq_true_eq] at hL ⊢
          exact le_trans hL htries
      by_cases hT' : timeoutElapsedB start_time timeout now' = true
      · simp [hT']
      · simp [hT', hL']
    · simp [hL] at hsome

/-- Witness for `check_limit_and_timeout_idempotent` at a concrete input:
`start_time = 0`, no timeout, `limit = 2`, `tries = 2` at `now = 1`,
re-evaluated at `tries = 3`, `now = 5`. -/
theorem check_limit_and_timeout_idempotent_witness :
    _check_limit_and_timeout 0 none 2 (some 2) 1 =
      _check_limit_and_timeout 0 none 2 (some 2) 1
    ∧ (_check_limit_and_timeout 0 none 3 (some 2) 5).isSome :=
  check_limit_and_timeout_idempotent 0 none 2 3 (some 2) 1 5
    (by norm_num) (by norm_num) (by decide)

/-- The configuration of one `_generic_input` invocation (core.py lines
54-62), immutable for its duration.  `prompt` is omitted: it is echoed
verbatim and no claim concerns it.  The argument-type checks of lines 88-101
hold by typing here; the only check with runtime content left is the
`password_mask` check of lines 102-107, kept in `_generic_input` below. -/
structure Config (E V : Type) where
  default_value : Option V
  timeout : Option ℚ
  limit : Option ℤ
  apply_func : Option (V → Except E V)
  validation_func : V → Except String (Option V)
  post_validate_apply_func : Option (V → Except E V)
  password_mask : Option String

/-- External inputs of one iteration: the raw line read from the console
(line 116 or 118) and the two clock readings the body can make — `t_check`
for the `time.time()` inside `_check_limit_and_timeout` on a failed attempt
(line 45 via line 136) and `t_post` for the post-success re-check
(line 158). -/
structure AttemptEvent (V : Type) where
  raw : V
  t_check : ℚ
  t_post : ℚ

/-- How one run of the loop ends.  `.ok` is a normal `return`;
`.timeoutError` and `.retryLimitError` are the raised terminal errors;
`.raised e` is an uncaught exception from a caller-supplied transform;
`.pending` means the supplied event list ran out while the loop would
keep prompting. -/
inductive LoopOutcome (E V : Type) where
  | ok (v : V)
  | timeoutError
  | retryLimitError
  | raised (e : E)
  | pending
deriving DecidableEq

/-- Lines 121-123: apply `apply_func` to the raw input when configured; its
exception (if any) is not caught by the loop. -/
def applied_input {E V : Type} (cfg : Config E V) (raw : V) : Except E V :=
  match cfg.apply_func with
  | none => Except.ok raw
  | some f => f raw

/-- Result of one iteration of the `while True` body: either the loop
terminates with an outcome (a `return` or an uncaught raise), or it
`continue`s; either way it may have printed validation messages. -/
inductive StepResult (E V : Type) where
  | done (out : LoopOutcome E V) (printed : List String)
  | retry (printed : List String)
deriving DecidableEq

/-- One iteration of the `while True` body of `_generic_input` (core.py
lines 112-168), entered with `tries` already incremented (line 119). -/
def _attempt_step {E V : Type} (cfg : Config E V) (start_time : ℚ)
    (tries : ℤ) (ev : AttemptEvent V) : StepResult E V :=
  match applied_input cfg ev.raw with
  | .error e => .done (.raised e) []
  | .ok user_input =>
    match cfg.validation_func user_input with
    | .error exc =>
      -- Lines 136-141: validation failed, consult the evaluator …
      match _check_limit_and_timeout start_time cfg.timeout tries cfg.limit
          ev.t_check with
      -- … line 143: `print(exc)` runs before the branch on the result,
      -- so `exc` is printed on every failed attempt.
      | some err =>
        match cfg.default_value with
        | some d => .done (.ok d) [exc]
        | none =>
          match err with
          | .timeoutExceeded => .done .timeoutError [exc]
          | .retryLimitExceeded => .done .retryLimitError [exc]
      | none => .retry [exc]
    | .ok possible_new_user_input =>
      -- Lines 130-131: a non-`None` replacement value becomes the input.
      let user_input := possible_new_user_input.getD user_input
      -- Lines 158-164: post-success timeout re-check.
      if timeoutElapsedB start_time cfg.timeout ev.t_post then
        match cfg.default_value with
        | some d => .done (.ok d) []
        | none => .done .timeoutError []
      else
        -- Lines 166-168: post-validation transform, then return.
        match cfg.post_validate_apply_func with
        | none => .done (.ok user_input) []
        | some f =>
          match f user_input with
          | .ok v => .done (.ok v) []
          | .error e => .done (.raised e) []

/-- The `while True` loop of `_generic_input` (lines 112-168), driven by a
finite list of attempt events; `tries` starts at the given value and is
incremented at each read (line 119).  Returns the outcome together with
the validation messages printed along the way. -/
def _generic_input_loop {E V : Type} (cfg : Config E V) (start_time : ℚ) :
    ℤ → List (AttemptEvent V) → LoopOutcome E V × List String
  | _, [] => (.pending, [])
  | tries, ev :: rest =>
    match _attempt_step cfg start_time (tries + 1) ev with
    | .done out printed => (out, printed)
    | .retry printed =>
      let r := _generic_input_loop cfg start_time (tries + 1) rest
      (r.1, printed ++ r.2)

/-- The configuration errors `_generic_input` can raise before the loop
(`PyInputPlusError`, lines 88-107).  With the typed embedding only the
`password_mask` check (lines 102-107) retains runtime content. -/
inductive ConfigError where
  | badMask
deriving DecidableEq

/-- The condition of lines 102-104 on an already-`str` mask: error iff
`len(password_mask) > 1`.  (The `isinstance` part holds by typing.) -/
def maskArgInvalid : Option String → Bool
  | none => false
  | some s => decide (s.length > 1)

/-- Embedding of `_generic_input` (core.py lines 54-168): validate the
arguments, then record `start_time` and run the loop from `tries = 0`
(lines 109-110).  A configuration error is raised before any prompt or
read occurs, i.e. before any event is consumed. -/
def _generic_input {E V : Type} (cfg : Config E V) (start_time : ℚ)
    (events : List (AttemptEvent V)) :
    Except ConfigError (LoopOutcome E V × List String) :=
  if maskArgInvalid cfg.password_mask then
    .error .badMask
  else
    .ok (_generic_input_loop cfg start_time 0 events)

/-- Helper: when a default value is configured, a single iteration of the
loop body can never terminate with a timeout or retry-limit error — the
branches raising them (lines 151 and 164) are guarded by
`default_value is None`. -/
theorem step_default_no_budget_error {E V : Type} (cfg : Config E V) (d : V)
    (hd : cfg.default_value = some d) (start_time : ℚ) (tries : ℤ)
    (ev : AttemptEvent V) (printed : List String) :
    _attempt_step cfg start_time tries ev ≠ .done .timeoutError printed
    ∧ _attempt_step cfg start_time tries ev ≠ .done .retryLimitError printed := by
  rcases happ : applied_input cfg ev.raw with e | u
  · constructor <;> simp [_attempt_step, happ]
  · rcases hval : cfg.validation_func u with exc | p
    · rcases hchk : _check_limit_and_timeout start_time cfg.timeout tries
          cfg.limit ev.t_check with _ | err
      · constructor <;> simp [_attempt_step, happ, hval, hchk]
      · constructor <;> simp [_attempt_step, happ, hval, hchk, hd]
    · cases htime : timeoutElapsedB start_time cfg.timeout ev.t_post with
      | true => constructor <;> simp [_attempt_step, happ, hval, htime, hd]
      | false =>
        rcases hpost : cfg.post_validate_apply_func with _ | f
        · constructor <;> simp [_attempt_step, happ, hval, htime, hpost]
        · rcases hf : f (p.getD u) with e | v
          · constructor <;> simp [_attempt_step, happ, hval, htime, hpost, hf]
          · constructor <;> simp [_attempt_step, happ, hval, htime, hpost, hf]

/-- Helper: the loop form of `step_default_no_budget_error`, for every
starting value of `tries`. -/
theorem loop_default_no_budget_error {E V : Type} (cfg : Config E V) (d : V)
    (hd : cfg.default_value = some d) (start_time : ℚ) (tries : ℤ)
    (events : List (AttemptEvent V)) :
    (_generic_input_loop cfg start_time tries events).1 ≠ .timeoutError
    ∧ (_generic_input_loop cfg start_time tries events).1 ≠ .retryLimitError := by
  induction events generalizing tries with
  | nil => simp [_generic_input_loop]
  | cons ev rest ih =>
    rcases hstep : _attempt_step cfg start_time (tries + 1) ev with
        ⟨out, printed⟩ | printed
    · have hne := step_default_no_budget_error cfg d hd start_time (tries + 1)
        ev printed
      simp only [_generic_input_loop, hstep]
      constructor
      · intro hbad
        rw [hbad] at hstep
        exact hne.1 hstep
      · intro hbad
        rw [hbad] at hstep
        exact hne.2 hstep
    · simpa [_generic_input_loop, hstep] using ih (tries + 1)

/-- Claim C2: when a default value is configured, `_generic_input` never
raises a timeout or retry-limit error — whenever either budget is exceeded
(on a failed attempt or at the post-success timeout re-check) it returns
the default instead. -/
theorem generic_input_default_never_raises {E V : Type} (cfg : Config E V)
    (d : V) (hd : cfg.default_value = some d) (start_time : ℚ) (tries : ℤ)
    (events : List (AttemptEvent V)) :
    (_generic_input_loop cfg start_time tries events).1 ≠ .timeoutError
    ∧ (_generic_input_loop cfg start_time tries events).1 ≠ .retryLimitError
    ∧ (∀ out printed,
        _generic_input cfg start_time events = .ok (out, printed) →
        out ≠ .timeoutError ∧ out ≠ .retryLimitError)
    ∧ (∀ ev rest u exc err, applied_input cfg ev.raw = .ok u →
        cfg.validation_func u = .error exc →
        _check_limit_and_timeout start_time cfg.timeout (tries + 1) cfg.limit
          ev.t_check = some err →
        _generic_input_loop cfg start_time tries (ev :: rest) = (.ok d, [exc]))
    ∧ (∀ ev rest u p, applied_input cfg ev.raw = .ok u →
        cfg.validation_func u = .ok p →
        timeoutElapsedB start_time cfg.timeout ev.t_post = true →
        _generic_input_loop cfg start_time tries (ev :: rest) =
          (.ok d, [])) := by
  refine ⟨(loop_default_no_budget_error cfg d hd start_time tries events).1,
    (loop_default_no_budget_error cfg d hd start_time tries events).2,
    ?_, ?_, ?_⟩
  · intro out printed h
    unfold _generic_input at h
    cases hm : maskArgInvalid cfg.password_mask with
    | true => simp [hm] at h
    | false =>
      simp only [hm, Bool.false_eq_true, if_false, Except.ok.injEq] at h
      have := loop_default_no_budget_error cfg d hd start_time 0 events
      rw [h] at this
      exact this
  · intro ev rest u exc err happ hval hchk
    simp [_generic_input_loop, _attempt_step, happ, hval, hchk, hd]
  · intro ev rest u p happ hval htime
    simp [_generic_input_loop, _attempt_step, happ, hval, htime, hd]

/-- A validator that always rejects, with message `"bad"`. -/
def failValidator : ℤ → Except String (Option ℤ) := fun _ => .error "bad"

/-- A validator that accepts every value unchanged (returns no replacement,
like a Python validator returning `None`). -/
def okValidator : ℤ → Except String (Option ℤ) := fun _ => .ok none

/-- Sample configuration: default `7`, retry limit `1`, no timeout, the
always-failing validator, no transforms, no mask. -/
def cfgDefaultLimit : Config ℕ ℤ where
  default_value := some 7
  timeout := none
  limit := some 1
  apply_func := none
  validation_func := failValidator
  post_validate_apply_func := none
  password_mask := none

/-- Sample attempt event: the user enters `0` and both clock readings of
the iteration are at time `0`. -/
def evZero : AttemptEvent ℤ := ⟨0, 0, 0⟩

/-- Witness for `generic_input_default_never_raises`: with default `7`,
limit `1` and an always-failing validator, one attempt ends the run without
a timeout or retry-limit error. -/
theorem generic_input_default_never_raises_witness :
    (_generic_input_loop cfgDefaultLimit 0 0 [evZero]).1 ≠ .timeoutError
    ∧ (_generic_input_loop cfgDefaultLimit 0 0 [evZero]).1 ≠ .retryLimitError :=
  ⟨(generic_input_default_never_raises cfgDefaultLimit 7 rfl 0 0 [evZero]).1,
    (generic_input_default_never_raises cfgDefaultLimit 7 rfl 0 0 [evZero]).2.1⟩

/-- Helper: the pre-validation transform step reads only `apply_func`, so it
is unaffected by replacing the post-validation transform. -/
theorem applied_input_update_post {E V : Type} (cfg : Config E V)
    (g : Option (V → Except E V)) (raw : V) :
    applied_input { cfg with post_validate_apply_func := g } raw =
      applied_input cfg raw := rfl

/-- Claim C3: after an attempt whose validation succeeds, the timeout is
re-checked; when it has strictly elapsed at that point the loop returns the
default if configured and otherwise raises the timeout error, instead of the
validated value — and the post-validation transform is not applied (the
result is the same for every choice of post-transform). -/
theorem post_success_timeout_recheck {E V : Type} (cfg : Config E V)
    (start_time : ℚ) (tries : ℤ) (ev : AttemptEvent V)
    (rest : List (AttemptEvent V)) (u : V) (p : Option V)
    (happ : applied_input cfg ev.raw = .ok u)
    (hval : cfg.validation_func u = .ok p)
    (htime : timeoutElapsedB start_time cfg.timeout ev.t_post = true) :
    (∀ d, cfg.default_value = some d →
        _generic_input_loop cfg start_time tries (ev :: rest) = (.ok d, []))
    ∧ (cfg.default_value = none →
        _generic_input_loop cfg start_time tries (ev :: rest) =
          (.timeoutError, []))
    ∧ (∀ g, _generic_input_loop { cfg with post_validate_apply_func := g }
        start_time tries (ev :: rest) =
        _generic_input_loop cfg start_time tries (ev :: rest)) := by
  refine ⟨?_, ?_, ?_⟩
  · intro d hd
    simp [_generic_input_loop, _attempt_step, happ, hval, htime, hd]
  · intro hd
    simp [_generic_input_loop, _attempt_step, happ, hval, htime, hd]
  · intro g
    have happg : applied_input { cfg with post_validate_apply_func := g }
        ev.raw = Except.ok u := happ
    simp only [_generic_input_loop, _attempt_step, happg, happ, hval, htime]
    rcases hd : cfg.default_value with _ | d <;> simp [hd]

/-- Default `7`, timeout `1`, accepting validator; used to exercise the
post-success timeout re-check. -/
def cfgTimeoutDefault : Config ℕ ℤ where
  default_value := some 7
  timeout := some 1
  limit := none
  apply_func := none
  validation_func := okValidator
  post_validate_apply_func := none
  password_mask := none

/-- Witness for `post_success_timeout_recheck`: timeout `1`, default `7`,
a successful attempt whose post-check clock reading is `3 > 0 + 1`. -/
theorem post_success_timeout_recheck_witness :
    _generic_input_loop cfgTimeoutDefault 0 0 [⟨0, 0, 3⟩] = (.ok 7, []) :=
  (post_success_timeout_recheck cfgTimeoutDefault 0 0 ⟨0, 0, 3⟩ [] 0 none
    rfl rfl (by simp [timeoutElapsedB, cfgTimeoutDefault])).1 7 rfl

/-- Retry limit `1`, no default, no timeout, always-failing validator. -/
def cfgLimitNoDefault : Config ℕ ℤ where
  default_value := none
  timeout := none
  limit := some 1
  apply_func := none
  validation_func := failValidator
  post_validate_apply_func := none
  password_mask := none

/-- Claim C4 counterexample: on a failed attempt where the evaluator signals
the retry-limit outcome (limit `1`, first try), the loop terminates with the
retry-limit error AND still displays the validation message `"bad"` — the
code prints the message before branching on the result of the evaluator, so the
message is not withheld on budget-exhausted attempts. -/
theorem message_display_cx :
    _check_limit_and_timeout 0 none (0 + 1) (some 1) 0 =
      some .retryLimitExceeded
    ∧ _generic_input_loop cfgLimitNoDefault 0 0 [evZero] =
        (.retryLimitError, ["bad"]) := by
  constructor <;> rfl

/-- Claim C4 amended: the message of the validation failure is displayed on every
failed attempt — both on the attempts where the evaluator signals no outcome
(before re-prompting) and on the attempts where it signals a timeout or
retry-limit outcome (before returning the default or raising). -/
theorem message_displayed_on_every_failed_attempt {E V : Type}
    (cfg : Config E V) (start_time : ℚ) (tries : ℤ) (ev : AttemptEvent V)
    (rest : List (AttemptEvent V)) (u : V) (exc : String)
    (happ : applied_input cfg ev.raw = .ok u)
    (hval : cfg.validation_func u = .error exc) :
    ∃ tl, (_generic_input_loop cfg start_time tries (ev :: rest)).2 =
      exc :: tl := by
  rcases hchk : _check_limit_and_timeout start_time cfg.timeout (tries + 1)
      cfg.limit ev.t_check with _ | err
  · exact ⟨(_generic_input_loop cfg start_time (tries + 1) rest).2,
      by simp [_generic_input_loop, _attempt_step, happ, hval, hchk]⟩
  · rcases hd : cfg.default_value with _ | d
    · cases err <;>
        exact ⟨[], by simp [_generic_input_loop, _attempt_step, happ, hval,
          hchk, hd]⟩
    · exact ⟨[], by simp [_generic_input_loop, _attempt_step, happ, hval,
        hchk, hd]⟩

/-- Witness for `message_displayed_on_every_failed_attempt`: the terminal
retry-limit run of `message_display_cx` still prints `"bad"` first. -/
theorem message_displayed_on_every_failed_attempt_witness :
    ∃ tl, (_generic_input_loop cfgLimitNoDefault 0 0 [evZero]).2 =
      "bad" :: tl :=
  message_displayed_on_every_failed_attempt cfgLimitNoDefault 0 0 evZero []
    0 "bad" rfl rfl

/-- Claim C6: the post-validation transform is applied only to a
successfully validated, non-default value.  Whenever the loop returns the
configured default — on a failed attempt that exceeded a budget, or at the
post-success timeout re-check — the result is exactly the default for every
choice of post-transform; and when a validated value is returned with a
post-transform configured, the result is the transform applied to the
validated (possibly normalized) working value. -/
theorem post_transform_only_on_validated {E V : Type} (cfg : Config E V)
    (start_time : ℚ) (tries : ℤ) (ev : AttemptEvent V)
    (rest : List (AttemptEvent V)) :
    (∀ u exc err d, applied_input cfg ev.raw = .ok u →
        cfg.validation_func u = .error exc →
        _check_limit_and_timeout start_time cfg.timeout (tries + 1) cfg.limit
          ev.t_check = some err →
        cfg.default_value = some d →
        _generic_input_loop cfg start_time tries (ev :: rest) = (.ok d, [exc])
        ∧ ∀ g, _generic_input_loop
            { cfg with post_validate_apply_func := g } start_time tries
            (ev :: rest) = (.ok d, [exc]))
    ∧ (∀ u p d, applied_input cfg ev.raw = .ok u →
        cfg.validation_func u = .ok p →
        timeoutElapsedB start_time cfg.timeout ev.t_post = true →
        cfg.default_value = some d →
        _generic_input_loop cfg start_time tries (ev :: rest) = (.ok d, [])
        ∧ ∀ g, _generic_input_loop
            { cfg with post_validate_apply_func := g } start_time tries
            (ev :: rest) = (.ok d, []))
    ∧ (∀ u p f r, applied_input cfg ev.raw = .ok u →
        cfg.validation_func u = .ok p →
        timeoutElapsedB start_time cfg.timeout ev.t_post = false →
        cfg.post_validate_apply_func = some f →
        f (p.getD u) = .ok r →
        _generic_input_loop cfg start_time tries (ev :: rest) =
          (.ok r, [])) := by
  refine ⟨?_, ?_, ?_⟩
  · intro u exc err d happ hval hchk hd
    refine ⟨?_, ?_⟩
    · simp [_generic_input_loop, _attempt_step, happ, hval, hchk, hd]
    · intro g
      have happg : applied_input { cfg with post_validate_apply_func := g }
          ev.raw = Except.ok u := happ
      simp [_generic_input_loop, _attempt_step, happg, hval, hchk]
      simp [hd]
  · intro u p d happ hval htime hd
    refine ⟨?_, ?_⟩
    · simp [_generic_input_loop, _attempt_step, happ, hval, htime, hd]
    · intro g
      have happg : applied_input { cfg with post_validate_apply_func := g }
          ev.raw = Except.ok u := happ
      simp [_generic_input_loop, _attempt_step, happg, hval, htime]
      simp [hd]
  · intro u p f r happ hval htime hpost hf
    simp [_generic_input_loop, _attempt_step, happ, hval, htime, hpost, hf]

/-- No default, no timeout, retry limit `1`, accepting validator; used to
show success is returned even when `tries >= limit`. -/
def cfgOkValidator : Config ℕ ℤ where
  default_value := none
  timeout := none
  limit := some 1
  apply_func := none
  validation_func := okValidator
  post_validate_apply_func := none
  password_mask := none

/-- Claim C7: the retry limit is checked only on failed attempts — when an
validation of an attempt succeeds and the timeout has not elapsed, the loop
returns the (possibly normalized and post-transformed) value and never
raises a retry-limit error, for every value of `tries` (even `>= limit`). -/
theorem success_ignores_retry_limit {E V : Type} (cfg : Config E V)
    (start_time : ℚ) (tries : ℤ) (ev : AttemptEvent V)
    (rest : List (AttemptEvent V)) (u : V) (p : Option V)
    (happ : applied_input cfg ev.raw = .ok u)
    (hval : cfg.validation_func u = .ok p)
    (htime : timeoutElapsedB start_time cfg.timeout ev.t_post = false) :
    (_generic_input_loop cfg start_time tries (ev :: rest)).1 ≠
      .retryLimitError
    ∧ (cfg.post_validate_apply_func = none →
        _generic_input_loop cfg start_time tries (ev :: rest) =
          (.ok (p.getD u), []))
    ∧ (∀ f r, cfg.post_validate_apply_func = some f → f (p.getD u) = .ok r →
        _generic_input_loop cfg start_time tries (ev :: rest) =
          (.ok r, [])) := by
  refine ⟨?_, ?_, ?_⟩
  · rcases hpost : cfg.post_validate_apply_func with _ | f
    · simp [_generic_input_loop, _attempt_step, happ, hval, htime, hpost]
    · rcases hf : f (p.getD u) with e | v <;>
        simp [_generic_input_loop, _attempt_step, happ, hval, htime, hpost,
          hf]
  · intro hpost
    simp [_generic_input_loop, _attempt_step, happ, hval, htime, hpost]
  · intro f r hpost hf
    simp [_generic_input_loop, _attempt_step, happ, hval, htime, hpost, hf]

/-- Witness for `success_ignores_retry_limit`: limit `1` but `tries = 5`
already consumed; a successful attempt still returns the value. -/
theorem success_ignores_retry_limit_witness :
    (_generic_input_loop cfgOkValidator 0 5 [evZero]).1 ≠ .retryLimitError
    ∧ _generic_input_loop cfgOkValidator 0 5 [evZero] =
        (.ok (Option.getD none 0), []) :=
  ⟨(success_ignores_retry_limit cfgOkValidator 0 5 evZero [] 0 none
      rfl rfl rfl).1,
    (success_ignores_retry_limit cfgOkValidator 0 5 evZero [] 0 none
      rfl rfl rfl).2.1 rfl⟩

/-- Claim C8: exceptions raised by the caller-supplied pre-validation
transform or post-validation transform are not caught by the loop: the run
terminates at once with that very exception, it is not converted into a
retry, and a configured default does not suppress it (no hypothesis below
constrains `default_value`). -/
theorem transform_exceptions_propagate {E V : Type} (cfg : Config E V)
    (start_time : ℚ) (tries : ℤ) (ev : AttemptEvent V)
    (rest : List (AttemptEvent V)) :
    (∀ e, applied_input cfg ev.raw = .error e →
        _generic_input_loop cfg start_time tries (ev :: rest) =
          (.raised e, []))
    ∧ (∀ u p f e, applied_input cfg ev.raw = .ok u →
        cfg.validation_func u = .ok p →
        timeoutElapsedB start_time cfg.timeout ev.t_post = false →
        cfg.post_validate_apply_func = some f →
        f (p.getD u) = .error e →
        _generic_input_loop cfg start_time tries (ev :: rest) =
          (.raised e, [])) := by
  constructor
  · intro e happ
    simp [_generic_input_loop, _attempt_step, happ]
  · intro u p f e happ hval htime hpost hf
    simp [_generic_input_loop, _attempt_step, happ, hval, htime, hpost, hf]

/-- No default, no budgets, always-failing validator, empty-string mask. -/
def cfgEmptyMask : Config ℕ ℤ where
  default_value := none
  timeout := none
  limit := none
  apply_func := none
  validation_func := failValidator
  post_validate_apply_func := none
  password_mask := some ""

/-- Claim C5 evidence: the mask check of core.py lines 102-107 rejects masks
longer than one character before any event is consumed, but it accepts the
empty-string mask (`len("") > 1` is false) and proceeds into the loop — even
though its own error message demands ``a single-character string``.  So a
mask whose length differs from 1 is not always rejected. -/
theorem mask_length_check_behavior :
    maskArgInvalid (some "ab") = true
    ∧ maskArgInvalid (some "") = false
    ∧ _generic_input { cfgEmptyMask with password_mask := some "ab" } 0
        [evZero] = .error .badMask
    ∧ _generic_input cfgEmptyMask 0 [evZero] =
        .ok (_generic_input_loop cfgEmptyMask 0 0 [evZero]) := by
  refine ⟨rfl, rfl, rfl, rfl⟩

/-- The parameter names of `_generic_input` after the snake_case rename
(core.py lines 54-62). -/
def genericInputParams : List String :=
  ["prompt", "default_value", "timeout", "limit", "apply_func",
    "validation_func", "post_validate_apply_func", "password_mask"]

/-- The keyword names `inputInt` and `inputFloat` use at their call to
`_generic_input` (inputs.py lines 303-310 and 379-386): the camelCase
names of the original API.  Note the absence of `postValidateApplyFunc`:
these two wrappers deliberately do not forward it to the core loop. -/
def wrapperCallKeywords : List String :=
  ["prompt", "default", "timeout", "limit", "applyFunc", "validationFunc"]

/-- Python keyword-call semantics: the keywords of a call that match no
parameter name of the callee.  If any exist, the call raises
`TypeError: got an unexpected keyword argument ...` and the body of the
callee never runs. -/
def unexpectedKeywords (params kwargs : List String) : List String :=
  kwargs.filter (fun k => !params.contains k)

/-- How a call to one of the numeric wrappers ends: a `TypeError` raised
at the `_generic_input` call site (a keyword that matches no parameter),
a configuration error from `_generic_input`, or the outcome of the normal
flow of the wrapper body. -/
inductive WrapperResult (E V : Type) where
  | typeError (keyword : String)
  | configError (err : ConfigError)
  | result (out : LoopOutcome E V) (printed : List String)
deriving DecidableEq

/-- Embedding of `inputInt` (inputs.py lines 221-320).  The wrapper builds
a validation closure (passed here as `validationFunc`) and calls
`_generic_input` with the camelCase keywords of `wrapperCallKeywords`
(lines 303-310).  In this repository core.py has been renamed to
snake_case, so the keywords `default`, `applyFunc` and `validationFunc`
match no parameter of `_generic_input`: Python raises `TypeError` at the
call, before any prompt, read, loop iteration, conversion or
post-transform.  The second branch mirrors the remainder of the source
text — the `int(float(result))` conversion, injected as `conv` with `none`
modelling a raised `ValueError` that keeps the unconverted result
(lines 312-316), then `postValidateApplyFunc` applied by the wrapper
itself (lines 318-320) — and is unreachable for the keyword lists of this
repository. -/
def inputInt {E V : Type} (default : Option V) (timeout : Option ℚ)
    (limit : Option ℤ) (applyFunc : Option (V → Except E V))
    (validationFunc : V → Except String (Option V))
    (postValidateApplyFunc : Option (V → Except E V))
    (conv : V → Option V) (start_time : ℚ)
    (events : List (AttemptEvent V)) : WrapperResult E V :=
  match unexpectedKeywords genericInputParams wrapperCallKeywords with
  | k :: _ => .typeError k
  | [] =>
    match _generic_input
        { default_value := default
          timeout := timeout
          limit := limit
          apply_func := applyFunc
          validation_func := validationFunc
          post_validate_apply_func := none
          password_mask := none } start_time events with
    | .error err => .configError err
    | .ok (outcome, printed) =>
      match outcome with
      | .ok result =>
        let result :=
          match conv result with
          | some r => r
          | none => result
        match postValidateApplyFunc with
        | none => .result (.ok result) printed
        | some f =>
          match f result with
          | .ok v => .result (.ok v) printed
          | .error e => .result (.raised e) printed
      | out => .result out printed

/-- Embedding of `inputFloat` (inputs.py lines 323-396): same shape as
`inputInt` — identical camelCase keywords at the `_generic_input` call
(lines 379-386), so the same `TypeError`; the unreachable second branch
mirrors lines 388-396 with the `float(result)` conversion injected as
`conv`. -/
def inputFloat {E V : Type} (default : Option V) (timeout : Option ℚ)
    (limit : Option ℤ) (applyFunc : Option (V → Except E V))
    (validationFunc : V → Except String (Option V))
    (postValidateApplyFunc : Option (V → Except E V))
    (conv : V → Option V) (start_time : ℚ)
    (events : List (AttemptEvent V)) : WrapperResult E V :=
  match unexpectedKeywords genericInputParams wrapperCallKeywords with
  | k :: _ => .typeError k
  | [] =>
    match _generic_input
        { default_value := default
          timeout := timeout
          limit := limit
          apply_func := applyFunc
          validation_func := validationFunc
          post_validate_apply_func := none
          password_mask := none } start_time events with
    | .error err => .configError err
    | .ok (outcome, printed) =>
      match outcome with
      | .ok result =>
        let result :=
          match conv result with
          | some r => r
          | none => result
        match postValidateApplyFunc with
        | none => .result (.ok result) printed
        | some f =>
          match f result with
          | .ok v => .result (.ok v) printed
          | .error e => .result (.raised e) printed
      | out => .result out printed

/-- A conversion that succeeds, shifting by 100 (stands in for a successful
`int(float(...))`). -/
def convAdd : ℤ → Option ℤ := fun z => some (z + 100)

/-- A conversion that always raises `ValueError` (so the unconverted value
is kept). -/
def convNone : ℤ → Option ℤ := fun _ => none

/-- A post-validation transform that doubles its input. -/
def postDouble : ℤ → Except ℕ ℤ := fun z => Except.ok (z * 2)

/-- Claim C10 evidence (code bug): `inputInt` and `inputFloat` call
`_generic_input` with the keywords `default`, `applyFunc` and
`validationFunc`, none of which is a parameter of the snake_case
`_generic_input` of this repository, so every call raises `TypeError`
before any prompt, loop iteration, conversion or post-transform — no event
is ever consumed, and the claimed application of the conversion and the
post-transform to the returned default can never occur.  This contradicts
the doctests of the wrappers themselves (inputs.py lines 248-280 and
350-356 show the calls returning values).  Evaluated at the concrete call
with default `7`, limit `1`, a failing validator, and a conversion and
post-transform configured, and, for `inputInt`, at every event list. -/
theorem wrapper_call_type_error :
    unexpectedKeywords genericInputParams wrapperCallKeywords =
      ["default", "applyFunc", "validationFunc"]
    ∧ inputInt (some 7) none (some 1) none failValidator (some postDouble)
        convAdd 0 [evZero] = .typeError "default"
    ∧ inputFloat (some 7) none (some 1) none failValidator (some postDouble)
        convNone 0 [evZero] = .typeError "default"
    ∧ ∀ (events : List (AttemptEvent ℤ)),
        inputInt (some 7) none (some 1) none failValidator (some postDouble)
          convAdd 0 events = .typeError "default" :=
  ⟨rfl, rfl, rfl, fun _ => rfl⟩

end PyInputPlus
